import Mathlib

/-!
Shallow embedding of `src/app.py`, a single-file Streamlit application that
collects six patient parameters, assembles them into a fixed-order record,
and on a button press feeds the record to a pre-trained binary classifier,
rendering a risk percentage, a category, and advisory messages.

Modelling choices:
* Python floats are modelled as `ℚ` (the app only compares, scales and
  truncates values; no float-specific behaviour is claimed).
* A pandas single-row DataFrame is modelled as an association list of
  column name and value, `Record`, preserving column order.
* The loaded model handle is opaque: `Model` is any function from a record
  to `Except String ℚ`; an `Except.error` models an exception raised inside
  `predict_proba`, an `Except.ok p` models `predict_proba(df)[0][1] = p`.
* Streamlit display calls are modelled as fields of an `Output` structure
  collecting error, warning, success and note texts, the result card and
  the progress value.  The ghost field `proba_calls` records the argument
  of every `predict_proba` invocation made by the handler.
-/

namespace App

/-- A single-row DataFrame: column names with their values, in column order. -/
abbrev Record := List (String × ℚ)

/-- Opaque model handle: `predict_proba(df)[0][1]`, which may raise. -/
abbrev Model := Record → Except String ℚ

/-- Column lookup in a record (`df[name][0]` access / reindex lookup). -/
def lookupCol (df : Record) (name : String) : Option ℚ :=
  (df.find? (fun p => p.1 = name)).map Prod.snd

/-- The current state of the six sidebar widgets (lines 87-140 of app.py).
`number_input` yields the three numeric values; `selectbox` yields one of
the option strings. -/
structure WidgetState where
  hba1c : ℚ
  bmi : ℚ
  haemoglobin : ℚ
  active_neo_input : String
  htn_input : String
  cvd_input : String

/-- The widget defaults declared in app.py: HbA1c `value=7.5`,
BMI `value=24.5`, Haemoglobin `value=135.0`, Active Neovascularisation
`index=0` ("No"), Hypertension `index=1` ("Yes"),
History of Cardiovascular Disease `index=0` ("No"). -/
def defaultWidgetState : WidgetState :=
  { hba1c := 7.5
    bmi := 24.5
    haemoglobin := 135.0
    active_neo_input := "No"
    htn_input := "Yes"
    cvd_input := "No" }

/-- The forced column order of app.py lines 159-166 (`expected_order`). -/
def expected_order : List String :=
  [ "Haemoglobin"
  , "Active.neovascularisation"
  , "History.of.cardiovascular.disease"
  , "HbA1c"
  , "BMI"
  , "Hypertension" ]

/-- `features[expected_order]` (pandas column reindexing, line 170):
select the columns in the given order; a missing column raises `KeyError`
carrying the offending name. -/
def reindexCols (df : Record) : List String → Except String Record
  | [] => .ok []
  | c :: rest =>
    match lookupCol df c with
    | none => .error c
    | some v => (reindexCols df rest).map (fun r => (c, v) :: r)

/-- Result of `user_input_features`: the returned DataFrame plus every
`st.error` text it emitted. -/
structure UIFResult where
  features : Record
  errors : List String
deriving DecidableEq

/-- Lines 169-173 of app.py: try to reorder the columns; on `KeyError`
emit the internal-error message and fall through with the original frame. -/
def reorderStep (df : Record) : UIFResult :=
  match reindexCols df expected_order with
  | .ok f => { features := f, errors := [] }
  | .error c =>
      { features := df
        errors := ["代码内部错误：列名拼写不匹配。详细信息: " ++ c] }

/-- `user_input_features` (app.py lines 87-174): read the widget values,
translate "Yes"/"No" to 1/0, build the data dict in source order, and
force the expected column order. -/
def user_input_features (w : WidgetState) : UIFResult :=
  let active_neo : ℚ := if w.active_neo_input = "Yes" then 1 else 0
  let hypertension : ℚ := if w.htn_input = "Yes" then 1 else 0
  let history_cv : ℚ := if w.cvd_input = "Yes" then 1 else 0
  let data : Record :=
    [ ("Haemoglobin", w.haemoglobin)
    , ("Active.neovascularisation", active_neo)
    , ("History.of.cardiovascular.disease", history_cv)
    , ("HbA1c", w.hba1c)
    , ("BMI", w.bmi)
    , ("Hypertension", hypertension) ]
  reorderStep data

/-- Python `int()` truncation toward zero, on rationals. -/
def pyInt (q : ℚ) : ℤ := if 0 ≤ q then ⌊q⌋ else -⌊-q⌋

/-- Everything the predict-button handler displays. `proba_calls` is a
ghost field recording each argument passed to `model.predict_proba`. -/
structure Output where
  errors : List String
  warnings : List String
  successes : List String
  notes : List String
  resultCard : Option (String × ℚ)
  progress : Option ℤ
  proba_calls : List Record
deriving DecidableEq

/-- The `st.error` text of the no-model branch (app.py line 260). -/
def modelNotLoadedMsg : String :=
  "Model not loaded. Please check if the .pkl file exists."

/-- The `st.warning` text for active neovascularisation (line 249). -/
def neoWarningMsg : String :=
  "⚠️ Active Neovascularisation is a significant risk factor."

/-- The `st.warning` text for elevated HbA1c (line 251). -/
def hba1cWarningMsg : String :=
  "⚠️ Elevated HbA1c suggests poor glycemic control."

/-- The `st.success` reassurance text (line 253). -/
def reassuranceMsg : String :=
  "✅ Patient profile suggests lower likelihood of recurrence."

/-- The `try:` block of the handler (app.py lines 207-257): call
`predict_proba`, render the result card, progress bar and advisories; on
an exception render the descriptive error and the follow-up note. -/
def renderPrediction (m : Model) (input_df : Record) : Output :=
  match m input_df with
    | .error e =>
        { errors := ["预测过程中发生错误: " ++ e]
          warnings := []
          successes := []
          notes := ["请检查输入的特征列名是否与模型完全匹配。"]
          resultCard := none
          progress := none
          proba_calls := [input_df] }
    | .ok prediction_proba =>
      let risk_percent : ℚ := prediction_proba * 100
      let category : String := if risk_percent > 50 then "High Risk" else "Low Risk"
      let warns : List String :=
        (if lookupCol input_df "Active.neovascularisation" = some 1
          then [neoWarningMsg] else []) ++
        (if (lookupCol input_df "HbA1c").elim false (fun v => decide (v > 8)) = true
          then [hba1cWarningMsg] else [])
      let succs : List String :=
        if risk_percent < 50 then [reassuranceMsg] else []
      { errors := []
        warnings := warns
        successes := succs
        notes := []
        resultCard := some (category, risk_percent)
        progress := some (pyInt (min risk_percent 100))
        proba_calls := [input_df] }

/-- The predict-button handler (app.py lines 205-260).  Given the cached
model handle (`none` is the load-failure sentinel, `if model:` is false)
and the collected record, produce everything displayed. -/
def predictHandler (model : Option Model) (input_df : Record) : Output :=
  match model with
  | none =>
      { errors := [modelNotLoadedMsg]
        warnings := []
        successes := []
        notes := []
        resultCard := none
        progress := none
        proba_calls := [] }
  | some m => renderPrediction m input_df

/-- A model handle that always returns the same probability; used to
instantiate theorems at concrete inputs. -/
def constModel (p : ℚ) : Model := fun _ => .ok p

/-- A model handle whose `predict_proba` always raises; used to
instantiate the error-path theorems. -/
def failingModel (e : String) : Model := fun _ => .error e

/-- The Scenario C record `[135.0, 0, 0, 7.5, 24.5, 1]` in expected order. -/
def scenarioCRecord : Record :=
  [ ("Haemoglobin", 135.0)
  , ("Active.neovascularisation", 0)
  , ("History.of.cardiovascular.disease", 0)
  , ("HbA1c", 7.5)
  , ("BMI", 24.5)
  , ("Hypertension", 1) ]

end App

namespace App

/-! ### Helper lemmas shared by the claim theorems -/

/-- Unfolding of the handler on a successful `predict_proba` call. -/
theorem renderPrediction_ok (m : Model) (df : Record) (p : ℚ)
    (h : m df = .ok p) :
    renderPrediction m df =
      { errors := []
        warnings :=
          (if lookupCol df "Active.neovascularisation" = some 1
            then [neoWarningMsg] else []) ++
          (if (lookupCol df "HbA1c").elim false (fun v => decide (v > 8)) = true
            then [hba1cWarningMsg] else [])
        successes := if p * 100 < 50 then [reassuranceMsg] else []
        notes := []
        resultCard := some (if p * 100 > 50 then "High Risk" else "Low Risk", p * 100)
        progress := some (pyInt (min (p * 100) 100))
        proba_calls := [df] } := by
  unfold renderPrediction
  rw [h]

/-- Unfolding of the handler on a raising `predict_proba` call. -/
theorem renderPrediction_error (m : Model) (df : Record) (e : String)
    (h : m df = .error e) :
    renderPrediction m df =
      { errors := ["预测过程中发生错误: " ++ e]
        warnings := []
        successes := []
        notes := ["请检查输入的特征列名是否与模型完全匹配。"]
        resultCard := none
        progress := none
        proba_calls := [df] } := by
  unfold renderPrediction
  rw [h]

/-- If some requested column is absent, pandas reindexing raises `KeyError`. -/
theorem reindexCols_missing (df : Record) (cols : List String) (c : String)
    (hc : c ∈ cols) (hmiss : lookupCol df c = none) :
    ∃ e, reindexCols df cols = .error e := by
  induction cols with
  | nil => cases hc
  | cons a rest ih =>
    rcases List.mem_cons.mp hc with h | h
    · subst h
      exact ⟨c, by unfold reindexCols; rw [hmiss]⟩
    · cases hla : lookupCol df a with
      | none => exact ⟨a, by unfold reindexCols; rw [hla]⟩
      | some v =>
        obtain ⟨e, he⟩ := ih h
        exact ⟨e, by unfold reindexCols; rw [hla, he]; rfl⟩

/-- The boolean HbA1c display guard holds iff the column is present and
exceeds 8. -/
theorem hbGuard_iff (df : Record) :
    ((lookupCol df "HbA1c").elim false (fun v => decide (v > 8)) = true) ↔
      ∃ v, lookupCol df "HbA1c" = some v ∧ v > 8 := by
  cases h : lookupCol df "HbA1c" <;> simp [h]

end App

namespace App

/-! ### Claim theorems -/

/-- C1: with all three selectboxes at their defaults ("No", "Yes", "No")
and the three numeric inputs at their defaults (HbA1c 7.5, BMI 24.5,
Haemoglobin 135.0), `user_input_features` produces exactly the record
`[135.0, 0, 0, 7.5, 24.5, 1]` in the expected column order (and no error),
and that very record is what the handler passes to `predict_proba`. -/
theorem scenario_c_default_record (m : Model) :
    user_input_features defaultWidgetState =
      { features := scenarioCRecord, errors := [] } ∧
    (predictHandler (some m)
        (user_input_features defaultWidgetState).features).proba_calls =
      [scenarioCRecord] := by
  refine ⟨rfl, ?_⟩
  show (renderPrediction m scenarioCRecord).proba_calls = [scenarioCRecord]
  unfold renderPrediction
  cases h : m scenarioCRecord <;> rfl

/-- C1 witness: instantiated at a concrete constant model. -/
theorem scenario_c_default_record_witness :
    user_input_features defaultWidgetState =
      { features := scenarioCRecord, errors := [] } ∧
    (predictHandler (some (constModel 1))
        (user_input_features defaultWidgetState).features).proba_calls =
      [scenarioCRecord] :=
  scenario_c_default_record (constModel 1)

/-- C2: for every widget state whose numeric inputs lie inside the declared
bounds (and any selectbox choices), `user_input_features` returns a record
of exactly 6 fields, named and ordered
[Haemoglobin, Active.neovascularisation, History.of.cardiovascular.disease,
 HbA1c, BMI, Hypertension], with no error emitted. -/
theorem collector_fixed_order (w : WidgetState)
    (_h1 : 50 ≤ w.haemoglobin) (_h2 : w.haemoglobin ≤ 200)
    (_h3 : 3 ≤ w.hba1c) (_h4 : w.hba1c ≤ 20)
    (_h5 : 10 ≤ w.bmi) (_h6 : w.bmi ≤ 60) :
    (user_input_features w).features.length = 6 ∧
    (user_input_features w).features.map Prod.fst = expected_order ∧
    (user_input_features w).features =
      [ ("Haemoglobin", w.haemoglobin)
      , ("Active.neovascularisation", if w.active_neo_input = "Yes" then 1 else 0)
      , ("History.of.cardiovascular.disease", if w.cvd_input = "Yes" then 1 else 0)
      , ("HbA1c", w.hba1c)
      , ("BMI", w.bmi)
      , ("Hypertension", if w.htn_input = "Yes" then 1 else 0) ] ∧
    (user_input_features w).errors = [] :=
  ⟨rfl, rfl, rfl, rfl⟩

/-- C2 witness: the default widget state is inside all bounds. -/
theorem collector_fixed_order_witness :
    (50 ≤ defaultWidgetState.haemoglobin ∧ defaultWidgetState.haemoglobin ≤ 200 ∧
     3 ≤ defaultWidgetState.hba1c ∧ defaultWidgetState.hba1c ≤ 20 ∧
     10 ≤ defaultWidgetState.bmi ∧ defaultWidgetState.bmi ≤ 60) ∧
    (user_input_features defaultWidgetState).features.length = 6 ∧
    (user_input_features defaultWidgetState).features.map Prod.fst = expected_order :=
  ⟨by refine ⟨?_, ?_, ?_, ?_, ?_, ?_⟩ <;> norm_num [defaultWidgetState],
   (collector_fixed_order defaultWidgetState
      (by norm_num [defaultWidgetState]) (by norm_num [defaultWidgetState])
      (by norm_num [defaultWidgetState]) (by norm_num [defaultWidgetState])
      (by norm_num [defaultWidgetState]) (by norm_num [defaultWidgetState])).1,
   (collector_fixed_order defaultWidgetState
      (by norm_num [defaultWidgetState]) (by norm_num [defaultWidgetState])
      (by norm_num [defaultWidgetState]) (by norm_num [defaultWidgetState])
      (by norm_num [defaultWidgetState]) (by norm_num [defaultWidgetState])).2.1⟩

end App

namespace App

/-- C3: for every successful prediction the category is "High Risk" iff
`risk_percent > 50`, and "Low Risk" otherwise; in particular a prediction
of exactly 50% is rendered "Low Risk". -/
theorem threshold_strict (m : Model) (df : Record) (p : ℚ)
    (hok : m df = .ok p) :
    ((predictHandler (some m) df).resultCard.map Prod.fst = some "High Risk" ↔
        p * 100 > 50) ∧
    ((predictHandler (some m) df).resultCard.map Prod.fst = some "Low Risk" ↔
        ¬ p * 100 > 50) ∧
    (p * 100 = 50 →
      (predictHandler (some m) df).resultCard = some ("Low Risk", p * 100)) := by
  rw [show predictHandler (some m) df = renderPrediction m df from rfl,
      renderPrediction_ok m df p hok]
  have hne : ("High Risk" : String) ≠ "Low Risk" := by decide
  by_cases hgt : p * 100 > 50
  · refine ⟨by simp [hgt], by simp [hgt, hne], fun h50 => ?_⟩
    rw [h50] at hgt
    exact absurd hgt (by norm_num)
  · exact ⟨by simp [hgt, hne.symm], by simp [hgt], fun _ => by simp [hgt]⟩

/-- C3 witness: a model returning probability 1/2 yields exactly 50% and
the "Low Risk" card. -/
theorem threshold_strict_witness :
    constModel (1/2) scenarioCRecord = .ok (1/2) ∧
    (predictHandler (some (constModel (1/2))) scenarioCRecord).resultCard =
      some ("Low Risk", (1/2 : ℚ) * 100) :=
  ⟨rfl, (threshold_strict (constModel (1/2)) scenarioCRecord (1/2) rfl).2.2
          (by norm_num)⟩

/-- C4: with the load-failure sentinel as model handle, the handler shows
exactly the "model not loaded" error: no warning, no reassurance, no note,
no result card, no progress value, and `predict_proba` is never called. -/
theorem no_model_exact_error (df : Record) :
    predictHandler none df =
      { errors := [modelNotLoadedMsg]
        warnings := []
        successes := []
        notes := []
        resultCard := none
        progress := none
        proba_calls := [] } := rfl

/-- C4 witness: instantiated at the Scenario C record. -/
theorem no_model_exact_error_witness :
    predictHandler none scenarioCRecord =
      { errors := [modelNotLoadedMsg]
        warnings := []
        successes := []
        notes := []
        resultCard := none
        progress := none
        proba_calls := [] } :=
  no_model_exact_error scenarioCRecord

/-- C5: if a required column of `expected_order` is absent from the data
frame, the reorder step of `user_input_features` emits the internal-error
message (and leaves the frame unreordered) instead of failing silently. -/
theorem missing_column_reports_internal_error (df : Record) (c : String)
    (hc : c ∈ expected_order) (hmiss : lookupCol df c = none) :
    ∃ e, (reorderStep df).errors =
        ["代码内部错误：列名拼写不匹配。详细信息: " ++ e] ∧
      (reorderStep df).features = df := by
  obtain ⟨e, he⟩ := reindexCols_missing df expected_order c hc hmiss
  exact ⟨e, by unfold reorderStep; rw [he], by unfold reorderStep; rw [he]⟩

/-- C5 witness: an empty frame is missing the Haemoglobin column and the
internal-error message is emitted. -/
theorem missing_column_reports_internal_error_witness :
    ("Haemoglobin" ∈ expected_order ∧ lookupCol [] "Haemoglobin" = none) ∧
    ∃ e, (reorderStep []).errors =
        ["代码内部错误：列名拼写不匹配。详细信息: " ++ e] ∧
      (reorderStep []).features = [] :=
  ⟨⟨by decide, rfl⟩,
   missing_column_reports_internal_error [] "Haemoglobin" (by decide) rfl⟩

/-- C6: on every successful prediction with a true probability
(`0 ≤ p`), the rendered risk percentage is `p * 100` and lies in
`[0, 100]` whenever `p ≤ 1`, and the progress indicator equals
`min(risk_percent, 100)` truncated to an integer and always lies in
`[0, 100]`, even when the raw percentage exceeds 100. -/
theorem risk_percent_and_indicator_bounds (m : Model) (df : Record) (p : ℚ)
    (hok : m df = .ok p) (h0 : 0 ≤ p) :
    ∃ cat i,
      (predictHandler (some m) df).resultCard = some (cat, p * 100) ∧
      (p ≤ 1 → 0 ≤ p * 100 ∧ p * 100 ≤ 100) ∧
      (predictHandler (some m) df).progress = some i ∧
      i = pyInt (min (p * 100) 100) ∧ 0 ≤ i ∧ i ≤ 100 := by
  rw [show predictHandler (some m) df = renderPrediction m df from rfl,
      renderPrediction_ok m df p hok]
  have hrp0 : (0 : ℚ) ≤ p * 100 := by positivity
  have hmin0 : (0 : ℚ) ≤ min (p * 100) 100 := le_min hrp0 (by norm_num)
  have hfloor : pyInt (min (p * 100) 100) = ⌊min (p * 100) 100⌋ := by
    simp [pyInt, hmin0]
  refine ⟨_, _, rfl, fun h1 => ⟨hrp0, ?_⟩, rfl, rfl, ?_, ?_⟩
  · nlinarith
  · rw [hfloor]
    exact Int.floor_nonneg.mpr hmin0
  · rw [hfloor]
    calc ⌊min (p * 100) 100⌋ ≤ ⌊(100 : ℚ)⌋ :=
          Int.floor_le_floor (min_le_right _ _)
      _ = 100 := by norm_num

/-- C6 witness: a model returning probability 3/4 on the empty record. -/
theorem risk_percent_and_indicator_bounds_witness :
    (constModel (3/4) [] = .ok (3/4) ∧ (0 : ℚ) ≤ 3/4) ∧
    ∃ cat i,
      (predictHandler (some (constModel (3/4))) []).resultCard =
        some (cat, (3/4 : ℚ) * 100) ∧
      ((3/4 : ℚ) ≤ 1 → 0 ≤ (3/4 : ℚ) * 100 ∧ (3/4 : ℚ) * 100 ≤ 100) ∧
      (predictHandler (some (constModel (3/4))) []).progress = some i ∧
      i = pyInt (min ((3/4 : ℚ) * 100) 100) ∧ 0 ≤ i ∧ i ≤ 100 :=
  ⟨⟨rfl, by norm_num⟩,
   risk_percent_and_indicator_bounds (constModel (3/4)) [] (3/4) rfl (by norm_num)⟩

end App

namespace App

/-- C7: the two advisory rules are independent and non-exclusive: on a
successful prediction the neovascularisation warning appears iff the
record's Active.neovascularisation column equals 1, the HbA1c warning
appears iff the record's HbA1c column is strictly greater than 8; in
particular a record with Active.neovascularisation = 1 and HbA1c = 9
shows both warnings, whatever the probability (hence whatever the
category). -/
theorem advisories_independent (m : Model) (df : Record) (p : ℚ)
    (hok : m df = .ok p) :
    (neoWarningMsg ∈ (predictHandler (some m) df).warnings ↔
        lookupCol df "Active.neovascularisation" = some 1) ∧
    (hba1cWarningMsg ∈ (predictHandler (some m) df).warnings ↔
        ∃ v, lookupCol df "HbA1c" = some v ∧ v > 8) ∧
    ((lookupCol df "Active.neovascularisation" = some 1 ∧
        lookupCol df "HbA1c" = some 9) →
      neoWarningMsg ∈ (predictHandler (some m) df).warnings ∧
      hba1cWarningMsg ∈ (predictHandler (some m) df).warnings) := by
  rw [show predictHandler (some m) df = renderPrediction m df from rfl,
      renderPrediction_ok m df p hok]
  have hne : neoWarningMsg ≠ hba1cWarningMsg := by decide
  have hiffs :
      (neoWarningMsg ∈
          ((if lookupCol df "Active.neovascularisation" = some 1
              then [neoWarningMsg] else []) ++
            (if (lookupCol df "HbA1c").elim false (fun v => decide (v > 8)) = true
              then [hba1cWarningMsg] else [])) ↔
        lookupCol df "Active.neovascularisation" = some 1) ∧
      (hba1cWarningMsg ∈
          ((if lookupCol df "Active.neovascularisation" = some 1
              then [neoWarningMsg] else []) ++
            (if (lookupCol df "HbA1c").elim false (fun v => decide (v > 8)) = true
              then [hba1cWarningMsg] else [])) ↔
        ∃ v, lookupCol df "HbA1c" = some v ∧ v > 8) := by
    by_cases hA : lookupCol df "Active.neovascularisation" = some 1 <;>
      by_cases hB :
        ((lookupCol df "HbA1c").elim false (fun v => decide (v > 8)) = true) <;>
      simp [hA, hB, hne, hne.symm, ← hbGuard_iff]
  refine ⟨hiffs.1, hiffs.2, fun ⟨hA, hH⟩ => ⟨hiffs.1.mpr hA, hiffs.2.mpr ?_⟩⟩
  exact ⟨9, hH, by norm_num⟩

/-- C7 witness: a record with Active.neovascularisation 1 and HbA1c 9
under a probability-0.2 model (a "Low Risk" outcome) shows both warnings. -/
theorem advisories_independent_witness :
    (constModel (1/5) [("Active.neovascularisation", 1), ("HbA1c", 9)] =
        .ok (1/5)) ∧
    (lookupCol [("Active.neovascularisation", 1), ("HbA1c", 9)]
        "Active.neovascularisation" = some 1 ∧
      lookupCol [("Active.neovascularisation", 1), ("HbA1c", 9)] "HbA1c" =
        some 9) ∧
    (neoWarningMsg ∈
        (predictHandler (some (constModel (1/5)))
          [("Active.neovascularisation", 1), ("HbA1c", 9)]).warnings ∧
      hba1cWarningMsg ∈
        (predictHandler (some (constModel (1/5)))
          [("Active.neovascularisation", 1), ("HbA1c", 9)]).warnings) :=
  ⟨rfl, ⟨rfl, rfl⟩,
   (advisories_independent (constModel (1/5))
      [("Active.neovascularisation", 1), ("HbA1c", 9)] (1/5) rfl).2.2
     ⟨rfl, rfl⟩⟩

/-- C8: an exception raised inside `predict_proba` is caught: the handler
returns normally (no crash) with exactly the descriptive error text and
the follow-up note, and renders no card, no progress value and no
advisory; the model handle and widget state are untouched. -/
theorem estimation_failure_handled (m : Model) (df : Record) (e : String)
    (h : m df = .error e) :
    predictHandler (some m) df =
      { errors := ["预测过程中发生错误: " ++ e]
        warnings := []
        successes := []
        notes := ["请检查输入的特征列名是否与模型完全匹配。"]
        resultCard := none
        progress := none
        proba_calls := [df] } := by
  rw [show predictHandler (some m) df = renderPrediction m df from rfl,
      renderPrediction_error m df e h]

/-- C8 witness: a model raising a shape-mismatch exception. -/
theorem estimation_failure_handled_witness :
    failingModel "shape mismatch" scenarioCRecord = .error "shape mismatch" ∧
    predictHandler (some (failingModel "shape mismatch")) scenarioCRecord =
      { errors := ["预测过程中发生错误: " ++ "shape mismatch"]
        warnings := []
        successes := []
        notes := ["请检查输入的特征列名是否与模型完全匹配。"]
        resultCard := none
        progress := none
        proba_calls := [scenarioCRecord] } :=
  ⟨rfl,
   estimation_failure_handled (failingModel "shape mismatch") scenarioCRecord
     "shape mismatch" rfl⟩

/-- C9: prediction is deterministic: two invocations of the handler on the
same model handle and the same record display the same outputs. -/
theorem prediction_deterministic (model : Option Model) (df : Record)
    (o1 o2 : Output) (h1 : o1 = predictHandler model df)
    (h2 : o2 = predictHandler model df) :
    o1 = o2 ∧ o1.resultCard = o2.resultCard ∧ o1.warnings = o2.warnings ∧
      o1.successes = o2.successes := by
  subst h1; subst h2
  exact ⟨rfl, rfl, rfl, rfl⟩

/-- C9 witness: two invocations on a concrete model and record agree. -/
theorem prediction_deterministic_witness :
    predictHandler (some (constModel (1/4))) scenarioCRecord =
      predictHandler (some (constModel (1/4))) scenarioCRecord ∧
    (predictHandler (some (constModel (1/4))) scenarioCRecord).resultCard =
      (predictHandler (some (constModel (1/4))) scenarioCRecord).resultCard ∧
    (predictHandler (some (constModel (1/4))) scenarioCRecord).warnings =
      (predictHandler (some (constModel (1/4))) scenarioCRecord).warnings ∧
    (predictHandler (some (constModel (1/4))) scenarioCRecord).successes =
      (predictHandler (some (constModel (1/4))) scenarioCRecord).successes :=
  prediction_deterministic (some (constModel (1/4))) scenarioCRecord
    (predictHandler (some (constModel (1/4))) scenarioCRecord)
    (predictHandler (some (constModel (1/4))) scenarioCRecord) rfl rfl

/-- C10: at the boundary `risk_percent = 50` the outputs are asymmetric:
the card says "Low Risk" (the high-risk branch needs strictly more than
50) yet the reassurance message is not shown (it needs strictly less than
50). -/
theorem boundary_low_risk_no_reassurance (m : Model) (df : Record) (p : ℚ)
    (hok : m df = .ok p) (h50 : p * 100 = 50) :
    (predictHandler (some m) df).resultCard = some ("Low Risk", 50) ∧
    (predictHandler (some m) df).successes = [] := by
  rw [show predictHandler (some m) df = renderPrediction m df from rfl,
      renderPrediction_ok m df p hok]
  constructor <;> simp [h50]

/-- C10 witness: a model returning probability 1/2 hits the boundary. -/
theorem boundary_low_risk_no_reassurance_witness :
    (constModel (1/2) [] = .ok (1/2) ∧ (1/2 : ℚ) * 100 = 50) ∧
    (predictHandler (some (constModel (1/2))) []).resultCard =
      some ("Low Risk", 50) ∧
    (predictHandler (some (constModel (1/2))) []).successes = [] :=
  ⟨⟨rfl, by norm_num⟩,
   boundary_low_risk_no_reassurance (constModel (1/2)) [] (1/2) rfl
     (by norm_num)⟩

end App
